import Mathlib

/-!
Shallow embedding of the anomaly-scoring pipeline of the
Intelligent Detection and Monitoring Platform.

Sources embedded:
- `app/ml/anomaly_detection.py` — feature engineering (pandas rolling
  statistics, `diff`, `pct_change`), sequence construction, prediction,
  the detection service and its severity policy;
- `app/core/config.py` — `MODEL_ACCURACY_THRESHOLD`;
- `app/api/v1/sensors.py` — alert-creation decision, sensor-data
  insertion and the historical-window query;
- `app/models/sensor.py` — the severity enumeration of `AnomalyAlertCreate`.

Conventions: Python floats are modelled as rationals (`ℚ`); where the
division-by-zero behaviour of IEEE doubles matters (pandas `pct_change`),
values are wrapped in `FloatVal`, which adds the infinities and NaN.
Timestamps are whole hours since the Unix epoch (`Nat`).  The neural
classifier and the fitted scaler are opaque parameters, matching the
spec's abstract contracts for them.  The rolling standard deviation is
represented by its square (the ddof-1 sample variance): `sqrt` is
injective on nonnegatives and maps 0 to 0, so every claim at issue
(which points feed the statistic; undefined results fixed to 0.0) is
unchanged by this representation.
-/

namespace Platform

/-- `AnomalyDetectionModel.sequence_length = 24` (anomaly_detection.py line 31). -/
def sequence_length : Nat := 24

/-- `Settings.MODEL_ACCURACY_THRESHOLD = 0.95` (config.py line 32). -/
def MODEL_ACCURACY_THRESHOLD : ℚ := 95 / 100

/-- An IEEE-754 double as it appears in the engineered feature columns: a
finite value (exact, as a rational), an infinity, or NaN.  Rounding is not
modelled; only exact zeros, division by zero and NaN-filling are at issue. -/
inductive FloatVal where
  | fin (q : ℚ)
  | posInf
  | negInf
  | nan
deriving DecidableEq, Repr

/-- IEEE division of doubles, on the cases the pipeline can reach:
`x / 0` is `±inf` for `x ≠ 0` and NaN for `x = 0`; otherwise exact. -/
def floatDiv (x y : ℚ) : FloatVal :=
  if y = 0 then
    if x = 0 then .nan else if 0 < x then .posInf else .negInf
  else .fin (x / y)

/-- pandas `fillna(0)` on one cell: replaces NaN with `0.0`; infinities are
not NaN and pass through unchanged. -/
def fillna0 : FloatVal → FloatVal
  | .nan => .fin 0
  | v => v

/-- Arithmetic mean of a list of rationals (0 on the empty list, matching
the 0/0 = 0 convention of `ℚ`; the pipeline never takes a mean of an empty
slice). -/
def mean (l : List ℚ) : ℚ := l.sum / l.length

/-- The slice of the value series feeding the rolling statistic at row `i`:
pandas `rolling(window=24, min_periods=1)` at row `i` uses rows
`max(0, i-23) .. i` (anomaly_detection.py lines 66-67). -/
def rollingWindow (values : List ℚ) (i : Nat) : List ℚ :=
  (values.take (i + 1)).drop (i + 1 - sequence_length)

/-- `df['rolling_mean_24h']` at row `i`:
`df['value'].rolling(window=24, min_periods=1).mean()`. -/
def rolling_mean_24h (values : List ℚ) (i : Nat) : ℚ :=
  mean (rollingWindow values i)

/-- ddof-1 sample variance as pandas computes it for `rolling(...).std()`
(squared): `none` (NaN) when fewer than 2 points are in the slice. -/
def sampleVar (l : List ℚ) : Option ℚ :=
  if l.length < 2 then none
  else some ((l.map (fun x => (x - mean l) ^ 2)).sum / (l.length - 1))

/-- `df['rolling_std_24h']` at row `i`, represented by its square:
`rolling(window=24, min_periods=1).std()` followed by the dataframe-wide
`fillna(0)` (anomaly_detection.py lines 67 and 74); the single-point NaN
becomes 0.0. -/
def rolling_var_24h (values : List ℚ) (i : Nat) : ℚ :=
  (sampleVar (rollingWindow values i)).getD 0

/-- `df['value_diff']` at row `i`: `df['value'].diff().fillna(0)`
(anomaly_detection.py line 70) — NaN at the first row becomes 0.0. -/
def value_diff (values : List ℚ) (i : Nat) : ℚ :=
  if i = 0 then 0 else values.getD i 0 - values.getD (i - 1) 0

/-- `df['value_change_rate']` at row `i`:
`df['value'].pct_change().fillna(0)` (anomaly_detection.py line 71).
`pct_change` is `(v_i - v_(i-1)) / v_(i-1)`; the first row's NaN is
filled with 0.0, but a zero predecessor yields `±inf` (or NaN for 0/0),
and `fillna` replaces only the NaN. -/
def value_change_rate (values : List ℚ) (i : Nat) : FloatVal :=
  if i = 0 then .fin 0
  else fillna0 (floatDiv (values.getD i 0 - values.getD (i - 1) 0)
                         (values.getD (i - 1) 0))

/-- `df['hour']` from a timestamp in whole hours since the epoch. -/
def hourOf (ts : Nat) : Nat := ts % 24

/-- `df['day_of_week']` (pandas `dayofweek`, Monday = 0; the epoch day was
a Thursday, offset 3). -/
def dayOfWeekOf (ts : Nat) : Nat := (ts / 24 + 3) % 7

/-- A sensor reading as the ML pipeline consumes it (the dict rows built in
`get_historical_sensor_data`, sensors.py lines 227-238). -/
structure Reading where
  sensor_id : String
  timestamp : Nat
  value : ℚ
deriving DecidableEq, Repr

instance : Inhabited Reading := ⟨{ sensor_id := "", timestamp := 0, value := 0 }⟩

/-- Insert a reading into a timestamp-sorted list (ascending). -/
def insertByTS (r : Reading) : List Reading → List Reading
  | [] => [r]
  | x :: xs => if r.timestamp ≤ x.timestamp then r :: x :: xs
               else x :: insertByTS r xs

/-- `df.sort_values('timestamp')` (anomaly_detection.py line 65). -/
def sortByTS : List Reading → List Reading
  | [] => []
  | x :: xs => insertByTS x (sortByTS xs)

/-- `AnomalyDetectionModel._engineer_features` (anomaly_detection.py lines
57-76): sort by timestamp, then per row the seven feature columns
`value, hour, day_of_week, rolling_mean_24h, rolling_std_24h (squared),
value_diff, value_change_rate`.  One feature row per input reading. -/
def engineer_features (data : List Reading) : List (List FloatVal) :=
  let sorted := sortByTS data
  let values := sorted.map (·.value)
  (List.range sorted.length).map fun i =>
    [ .fin (values.getD i 0),
      .fin ((hourOf ((sorted.getD i default).timestamp) : ℚ)),
      .fin ((dayOfWeekOf ((sorted.getD i default).timestamp) : ℚ)),
      .fin (rolling_mean_24h values i),
      .fin (rolling_var_24h values i),
      .fin (value_diff values i),
      value_change_rate values i ]

/-- `AnomalyDetectionModel._create_sequences` (anomaly_detection.py lines
78-86): `for i in range(len(data) - sequence_length + 1)`, append
`data[i : i+24]` to `X` and `labels[i + 24 - 1]` to `y`.  The Python range
is empty when `len(data) < 24`, hence the `+ 1 - sequence_length` on `Nat`. -/
def create_sequences {α β : Type} [Inhabited β]
    (data : List α) (labels : List β) : List (List α) × List β :=
  ((List.range (data.length + 1 - sequence_length)).map
      fun i => (data.drop i).take sequence_length,
   (List.range (data.length + 1 - sequence_length)).map
      fun i => labels.getD (i + sequence_length - 1) default)

/-- `AnomalyDetectionModel.predict_anomaly` (anomaly_detection.py lines
148-178), parametrised by the loaded scaler's row transform and the
classifier (opaque per the spec's Normalizer/Classifier contracts):
engineer features, scale, and if fewer than `sequence_length` rows are
available return the default `(False, 0.0)`; otherwise score the last 24
rows and report `(prediction > 0.5, prediction)`. -/
def predict_anomaly (scaleRow : List FloatVal → List ℚ)
    (modelPredict : List (List ℚ) → ℚ) (data : List Reading) : Bool × ℚ :=
  let X := engineer_features data
  let X_scaled := X.map scaleRow
  if X_scaled.length < sequence_length then (false, 0)
  else
    let X_seq := X_scaled.drop (X_scaled.length - sequence_length)
    let p := modelPredict X_seq
    (decide (1 / 2 < p), p)

/-- The dict returned by `AnomalyDetectionService.detect_anomaly`. -/
structure DetectionResult where
  is_anomaly : Bool
  anomaly_score : ℚ
  severity : String
  message : String
deriving DecidableEq, Repr

/-- `AnomalyDetectionService._determine_severity` (anomaly_detection.py
lines 252-261). -/
def determine_severity (anomaly_score : ℚ) : String :=
  if 9 / 10 ≤ anomaly_score then "critical"
  else if 8 / 10 ≤ anomaly_score then "high"
  else if 6 / 10 ≤ anomaly_score then "medium"
  else "low"

/-- The success path of `AnomalyDetectionService.detect_anomaly`
(anomaly_detection.py lines 215-241): combine history with the current
reading, predict, and report an anomaly only when the boolean verdict is
set and the score clears `MODEL_ACCURACY_THRESHOLD`; otherwise the
non-anomalous record with severity `'normal'`. -/
def detect_anomaly (scaleRow : List FloatVal → List ℚ)
    (modelPredict : List (List ℚ) → ℚ)
    (current : Reading) (historical : List Reading) : DetectionResult :=
  let all_data := historical ++ [current]
  let pr := predict_anomaly scaleRow modelPredict all_data
  if pr.1 = true ∧ MODEL_ACCURACY_THRESHOLD ≤ pr.2 then
    { is_anomaly := true, anomaly_score := pr.2,
      severity := determine_severity pr.2, message := "Anomaly detected" }
  else
    { is_anomaly := false, anomaly_score := pr.2,
      severity := "normal", message := "No anomaly detected" }

/-- `AnomalyDetectionService.detect_anomaly` with its `try/except`
(anomaly_detection.py lines 212-250): an exception anywhere inside —
in particular `load_model` re-raising on a missing or corrupt artifact
(lines 191-202) — is caught and turned into the error record
`{is_anomaly: False, anomaly_score: 0.0, severity: 'error', ...}`.
The `Except` argument carries the outcome of loading the model artifacts. -/
def detect_anomaly_full
    (loaded : Except String ((List FloatVal → List ℚ) × (List (List ℚ) → ℚ)))
    (current : Reading) (historical : List Reading) : DetectionResult :=
  match loaded with
  | .error e =>
    { is_anomaly := false, anomaly_score := 0,
      severity := "error", message := "Detection error: " ++ e }
  | .ok (scaleRow, modelPredict) =>
    detect_anomaly scaleRow modelPredict current historical

/-- The alert-creation decision in `process_sensor_data_async`
(sensors.py lines 193-195): an alert row is created iff the detection
result's `is_anomaly` flag is set. -/
def alert_created (r : DetectionResult) : Bool := r.is_anomaly

/-- The documented severity enumeration, from `AnomalyAlertCreate`'s
`regex="^(low|medium|high|critical)$"` (sensor.py line 77). -/
def severityEnum : List String := ["low", "medium", "high", "critical"]

/-- Rank of a severity tier in the ordering low < medium < high < critical. -/
def severityRank : String → Nat
  | "medium" => 1
  | "high" => 2
  | "critical" => 3
  | _ => 0

/-- A row of the `sensor_data` table (sensor.py lines 11-25): autoincrement
primary key, no uniqueness constraint on `(sensor_id, timestamp)`. -/
structure SensorRow where
  id : Nat
  sensor_id : String
  timestamp : Nat
  value : ℚ
deriving DecidableEq, Repr

/-- `create_sensor_data` (sensors.py lines 23-50): unconditionally inserts
a fresh row with the next autoincrement id for the posted reading. -/
def create_sensor_data (db : List SensorRow) (sid : String) (ts : Nat)
    (v : ℚ) : List SensorRow :=
  db ++ [{ id := db.length + 1, sensor_id := sid, timestamp := ts, value := v }]

/-- Insert a row into a timestamp-sorted list (ascending). -/
def insertRowByTS (r : SensorRow) : List SensorRow → List SensorRow
  | [] => [r]
  | x :: xs => if r.timestamp ≤ x.timestamp then r :: x :: xs
               else x :: insertRowByTS r xs

/-- `ORDER BY timestamp` ascending. -/
def sortRowsByTS : List SensorRow → List SensorRow
  | [] => []
  | x :: xs => insertRowByTS x (sortRowsByTS xs)

/-- The database path of `get_historical_sensor_data` (sensors.py lines
203-247): all rows of the sensor with `timestamp >= since`, ordered by
timestamp ascending. -/
def get_historical_sensor_data (db : List SensorRow) (sid : String)
    (since : Nat) : List SensorRow :=
  sortRowsByTS (db.filter fun r => r.sensor_id = sid ∧ since ≤ r.timestamp)

/-! ## Supporting lemmas -/

/-- The boolean verdict of `predict_anomaly` is exactly "the returned score
exceeds the 0.5 decision boundary" — on the insufficient-history branch the
returned score is 0, which is not above 0.5. -/
theorem predict_anomaly_fst (scaleRow : List FloatVal → List ℚ)
    (modelPredict : List (List ℚ) → ℚ) (data : List Reading) :
    (predict_anomaly scaleRow modelPredict data).1 =
      decide (1 / 2 < (predict_anomaly scaleRow modelPredict data).2) := by
  simp only [predict_anomaly]
  split
  · norm_num
  · rfl

/-- `_determine_severity` only ever returns one of the four tier names. -/
theorem determine_severity_mem (q : ℚ) : determine_severity q ∈ severityEnum := by
  simp only [determine_severity, severityEnum]
  split_ifs <;> simp

/-- `insertByTS` grows the list by one. -/
theorem length_insertByTS (r : Reading) (l : List Reading) :
    (insertByTS r l).length = l.length + 1 := by
  induction l with
  | nil => rfl
  | cons x xs ih =>
    simp only [insertByTS]
    split
    · simp
    · simp [ih]

/-- Sorting by timestamp preserves the number of readings. -/
theorem length_sortByTS (l : List Reading) : (sortByTS l).length = l.length := by
  induction l with
  | nil => rfl
  | cons x xs ih => simp [sortByTS, length_insertByTS, ih]

/-- Feature engineering yields one feature row per input reading. -/
theorem length_engineer_features (data : List Reading) :
    (engineer_features data).length = data.length := by
  simp [engineer_features, length_sortByTS]

/-- Indexing a map over `List.range`. -/
theorem getD_range_map {γ : Type} (f : Nat → γ) (n j : Nat) (h : j < n) (d : γ) :
    ((List.range n).map f).getD j d = f j := by
  have hlt : j < ((List.range n).map f).length := by simp [h]
  rw [List.getD_eq_getElem _ _ hlt]
  simp

/-- `insertRowByTS` counts like a `cons`. -/
theorem countP_insertRowByTS (p : SensorRow → Bool) (r : SensorRow)
    (l : List SensorRow) :
    (insertRowByTS r l).countP p = (r :: l).countP p := by
  induction l with
  | nil => rfl
  | cons x xs ih =>
    simp only [insertRowByTS]
    split
    · rfl
    · simp only [List.countP_cons, ih]
      omega

/-- Sorting by timestamp does not change how many rows satisfy a predicate. -/
theorem countP_sortRowsByTS (p : SensorRow → Bool) (l : List SensorRow) :
    (sortRowsByTS l).countP p = l.countP p := by
  induction l with
  | nil => rfl
  | cons x xs ih =>
    simp only [sortRowsByTS, countP_insertRowByTS, List.countP_cons, ih]

/-! ## Claim theorems -/

/-- **C3.** For every probability `p ∈ [0,1]`, the severity classification
returns `critical` when `p ≥ 0.9`, `high` when `0.8 ≤ p < 0.9`, `medium`
when `0.6 ≤ p < 0.8`, and `low` otherwise. -/
theorem severity_thresholds (p : ℚ) (h0 : 0 ≤ p) (h1 : p ≤ 1) :
    (9 / 10 ≤ p → determine_severity p = "critical") ∧
    (8 / 10 ≤ p ∧ p < 9 / 10 → determine_severity p = "high") ∧
    (6 / 10 ≤ p ∧ p < 8 / 10 → determine_severity p = "medium") ∧
    (p < 6 / 10 → determine_severity p = "low") := by
  refine ⟨fun h => ?_, fun h => ?_, fun h => ?_, fun h => ?_⟩ <;>
    · unfold determine_severity
      split_ifs with ha hb hc <;>
        first
          | rfl
          | (exfalso
             first
               | linarith
               | exact absurd h.1 (by linarith)
               | exact absurd h.2 (by linarith))

/-- Witness for C3 at `p = 0.85`. -/
theorem severity_thresholds_witness :
    (0 : ℚ) ≤ 85 / 100 ∧ (85 / 100 : ℚ) ≤ 1 ∧
      determine_severity (85 / 100) = "high" :=
  ⟨by norm_num, by norm_num,
   (severity_thresholds (85 / 100) (by norm_num) (by norm_num)).2.1
     ⟨by norm_num, by norm_num⟩⟩

/-- **C9.** The severity classification is monotone: for `p1 < p2` the tier
of `p1` is never strictly above the tier of `p2` in
low < medium < high < critical. -/
theorem severity_monotone (p1 p2 : ℚ) (h : p1 < p2) :
    severityRank (determine_severity p1) ≤ severityRank (determine_severity p2) := by
  unfold determine_severity
  split_ifs <;> first | decide | (exfalso; linarith)

/-- Witness for C9 at `p1 = 0.55`, `p2 = 0.95`. -/
theorem severity_monotone_witness :
    (55 / 100 : ℚ) < 95 / 100 ∧
      severityRank (determine_severity (55 / 100)) ≤
        severityRank (determine_severity (95 / 100)) :=
  ⟨by norm_num, severity_monotone (55 / 100) (95 / 100) (by norm_num)⟩

/-- **C2.** A scored reading is reported anomalous — and hence an alert row
is created by `process_sensor_data_async` — iff the classifier's boolean
verdict holds (score strictly above the 0.5 decision boundary) and the score
is at or above `MODEL_ACCURACY_THRESHOLD`. -/
theorem alert_iff_verdict_and_threshold (scaleRow : List FloatVal → List ℚ)
    (modelPredict : List (List ℚ) → ℚ) (current : Reading)
    (historical : List Reading) :
    alert_created (detect_anomaly scaleRow modelPredict current historical) = true ↔
      (1 / 2 < (detect_anomaly scaleRow modelPredict current historical).anomaly_score ∧
       MODEL_ACCURACY_THRESHOLD ≤
         (detect_anomaly scaleRow modelPredict current historical).anomaly_score) := by
  have hfst := predict_anomaly_fst scaleRow modelPredict (historical ++ [current])
  simp only [detect_anomaly, alert_created]
  split_ifs with hc
  · have hh := hc.1
    rw [hfst] at hh
    exact ⟨fun _ => ⟨of_decide_eq_true hh, hc.2⟩, fun _ => rfl⟩
  · constructor
    · intro hfalse; exact absurd hfalse (by simp)
    · intro ⟨hhalf, hthr⟩
      exact absurd ⟨by rw [hfst]; exact decide_eq_true hhalf, hthr⟩ hc

/-- Witness for C2 at a concrete reading with no history: the verdict is
not anomalous and indeed neither condition of the right-hand side holds. -/
theorem alert_iff_verdict_and_threshold_witness :
    (alert_created (detect_anomaly (fun _ => []) (fun _ => 1)
          ⟨"s1", 0, 5⟩ []) = true ↔
      (1 / 2 < (detect_anomaly (fun _ => []) (fun _ => 1)
          ⟨"s1", 0, 5⟩ []).anomaly_score ∧
       MODEL_ACCURACY_THRESHOLD ≤ (detect_anomaly (fun _ => []) (fun _ => 1)
          ⟨"s1", 0, 5⟩ []).anomaly_score)) :=
  alert_iff_verdict_and_threshold (fun _ => []) (fun _ => 1) ⟨"s1", 0, 5⟩ []

/-- **C7.** When the model artifact fails to load (missing or corrupt), the
scoring path refuses to produce a verdict: no alert is created, the score is
the inert 0.0, and the failure is surfaced as the degraded severity
`'error'` with an error message — distinguishable from the `'normal'`
non-anomalous record and from every severity the success path can assign. -/
theorem model_artifact_failure_degraded (e : String) (current : Reading)
    (historical : List Reading) :
    alert_created (detect_anomaly_full (.error e) current historical) = false ∧
    (detect_anomaly_full (.error e) current historical).anomaly_score = 0 ∧
    (detect_anomaly_full (.error e) current historical).severity = "error" ∧
    (detect_anomaly_full (.error e) current historical).severity ≠ "normal" ∧
    (∀ q : ℚ, (detect_anomaly_full (.error e) current historical).severity ≠
        determine_severity q) ∧
    (detect_anomaly_full (.error e) current historical).message =
      "Detection error: " ++ e := by
  refine ⟨rfl, rfl, rfl, by simp [detect_anomaly_full], fun q => ?_, rfl⟩
  simp only [detect_anomaly_full, determine_severity]
  split_ifs <;> simp

/-- Witness for C7 on a concrete corrupt-artifact failure. -/
theorem model_artifact_failure_degraded_witness :
    alert_created (detect_anomaly_full (.error "corrupt") ⟨"s2", 3, 7⟩ []) =
      false ∧
    (detect_anomaly_full (.error "corrupt") ⟨"s2", 3, 7⟩ []).severity =
      "error" ∧
    (detect_anomaly_full (.error "corrupt") ⟨"s2", 3, 7⟩ []).severity ≠
      determine_severity 1 :=
  ⟨(model_artifact_failure_degraded "corrupt" ⟨"s2", 3, 7⟩ []).1,
   (model_artifact_failure_degraded "corrupt" ⟨"s2", 3, 7⟩ []).2.2.1,
   (model_artifact_failure_degraded "corrupt" ⟨"s2", 3, 7⟩ []).2.2.2.2.1 1⟩

/-- **C10.** `detect_anomaly` is total over its error branch: an internal
exception yields the record `is_anomaly = false`, `anomaly_score = 0.0`,
severity `'error'` — a value outside the documented enum
{low, medium, high, critical} — just as the non-anomalous success path
yields the out-of-enum severity `'normal'`. -/
theorem error_branch_total (e : String) (current : Reading)
    (historical : List Reading) :
    detect_anomaly_full (.error e) current historical =
      { is_anomaly := false, anomaly_score := 0, severity := "error",
        message := "Detection error: " ++ e } ∧
    "error" ∉ severityEnum ∧
    "normal" ∉ severityEnum ∧
    (∀ scaleRow modelPredict c h,
      (detect_anomaly scaleRow modelPredict c h).is_anomaly = false →
        (detect_anomaly scaleRow modelPredict c h).severity = "normal") := by
  refine ⟨rfl, by decide, by decide, fun s m c h hfalse => ?_⟩
  by_cases hcond : ((predict_anomaly s m (h ++ [c])).1 = true ∧
      MODEL_ACCURACY_THRESHOLD ≤ (predict_anomaly s m (h ++ [c])).2)
  · simp [detect_anomaly, hcond] at hfalse
  · simp [detect_anomaly, hcond]

/-- **C1.** With fewer than `sequence_length = 24` feature points available,
`predict_anomaly` does not fail and does not assemble a degraded sequence:
it returns the non-anomalous default verdict `(False, 0.0)`, for any loaded
scaler and classifier. -/
theorem predict_anomaly_insufficient_history
    (scaleRow : List FloatVal → List ℚ) (modelPredict : List (List ℚ) → ℚ)
    (data : List Reading) (h : data.length < sequence_length) :
    predict_anomaly scaleRow modelPredict data = (false, 0) := by
  simp only [predict_anomaly]
  rw [if_pos]
  rw [List.length_map, length_engineer_features]
  exact h

/-- Witness for C1: a single reading is fewer than 24 points and yields the
default verdict. -/
theorem predict_anomaly_insufficient_history_witness :
    ([(⟨"s1", 7, 21⟩ : Reading)].length < sequence_length) ∧
      predict_anomaly (fun _ => []) (fun _ => 1) [⟨"s1", 7, 21⟩] = (false, 0) :=
  ⟨by decide,
   predict_anomaly_insufficient_history (fun _ => []) (fun _ => 1)
     [⟨"s1", 7, 21⟩] (by decide)⟩

/-- **C4.** At a row with `k < 24` prior points, the rolling statistics are
computed over exactly the `k + 1` points ending at that row (the window
never reaches beyond the series' start): the rolling mean is the mean of
precisely those points, the rolling standard deviation is the ddof-1 sample
statistic of precisely those points, and its undefined single-point case
(`k = 0`) is fixed to 0.0. -/
theorem rolling_window_narrows (values : List ℚ) (i : Nat)
    (hi : i < values.length) (h24 : i < sequence_length) :
    rollingWindow values i = values.take (i + 1) ∧
    (rollingWindow values i).length = i + 1 ∧
    rolling_mean_24h values i = mean (values.take (i + 1)) ∧
    rolling_var_24h values i = (sampleVar (values.take (i + 1))).getD 0 ∧
    (i = 0 → sampleVar (values.take 1) = none ∧ rolling_var_24h values 0 = 0) := by
  have hwin : rollingWindow values i = values.take (i + 1) := by
    unfold rollingWindow
    have : i + 1 - sequence_length = 0 := by
      unfold sequence_length at h24 ⊢; omega
    rw [this, List.drop_zero]
  have hlen : (values.take (i + 1)).length = i + 1 := by
    rw [List.length_take]
    omega
  refine ⟨hwin, by rw [hwin]; exact hlen, ?_, ?_, ?_⟩
  · rw [rolling_mean_24h, hwin]
  · rw [rolling_var_24h, hwin]
  · intro hi0
    subst hi0
    have h1 : (values.take 1).length = 1 := hlen
    have hvar : sampleVar (values.take 1) = none := by
      unfold sampleVar
      rw [if_pos (by omega)]
    refine ⟨hvar, ?_⟩
    rw [rolling_var_24h, hwin, hvar]
    rfl

/-- Witness for C4 at the series `[3, 5, 10]`, row `i = 1` (one prior
point): both statistics use exactly the two points `[3, 5]`. -/
theorem rolling_window_narrows_witness :
    (1 < ([3, 5, 10] : List ℚ).length ∧ 1 < sequence_length) ∧
      rollingWindow [3, 5, 10] 1 = [3, 5] ∧
      rolling_mean_24h [3, 5, 10] 1 = 4 ∧
      rolling_var_24h [3, 5, 10] 1 = 2 :=
  ⟨⟨by decide, by decide⟩,
   by
    obtain ⟨hwin, -, hmean, hvar, -⟩ :=
      rolling_window_narrows [3, 5, 10] 1 (by decide) (by decide)
    refine ⟨by rw [hwin]; rfl, ?_, ?_⟩
    · rw [hmean]; norm_num [mean]
    · rw [hvar]; norm_num [sampleVar, mean]⟩

/-- **C5, counterexample.** The claim "value_change_rate is exactly 0.0 at
every point whose immediately preceding value is zero" is false: in the
series `[0, 5]` the second point's predecessor is 0, yet
`pct_change().fillna(0)` yields `+inf` there (5/0 is infinite, not NaN, and
`fillna` replaces only NaN), not 0.0. -/
theorem value_change_rate_zero_predecessor_counterexample :
    ([(0 : ℚ), 5].getD 0 0 = 0) ∧
      value_change_rate [0, 5] 1 = FloatVal.posInf ∧
      FloatVal.posInf ≠ FloatVal.fin 0 := by
  refine ⟨rfl, ?_, by decide⟩
  norm_num [value_change_rate, floatDiv, fillna0]

/-- **C5, amended.** `value_diff` and `value_change_rate` are exactly 0.0 at
the first point of the series.  For a later point whose immediately
preceding value is zero, `value_change_rate` is 0.0 only when the current
value is also zero (0/0 is NaN and is filled to 0); when the current value
is nonzero, the result is `+inf` or `-inf`, which `fillna(0)` does not
replace, so it leaks into the features. -/
theorem value_change_rate_amended (values : List ℚ) (i : Nat) :
    (value_diff values 0 = 0 ∧ value_change_rate values 0 = .fin 0) ∧
    (1 ≤ i → values.getD (i - 1) 0 = 0 →
      value_change_rate values i =
        (if values.getD i 0 = 0 then .fin 0
         else if 0 < values.getD i 0 then .posInf else .negInf)) := by
  refine ⟨⟨rfl, rfl⟩, fun h1 hprev => ?_⟩
  have hne : i ≠ 0 := by omega
  simp only [value_change_rate, if_neg hne, hprev, sub_zero]
  rw [show floatDiv (values.getD i 0) 0 =
        (if values.getD i 0 = 0 then FloatVal.nan
         else if 0 < values.getD i 0 then FloatVal.posInf
         else FloatVal.negInf) from by simp [floatDiv]]
  split_ifs <;> rfl

/-- Witness for C5 (amended) on the series `[0, 5]` at `i = 1`. -/
theorem value_change_rate_amended_witness :
    (value_diff [(0 : ℚ), 5] 0 = 0 ∧ value_change_rate [(0 : ℚ), 5] 0 = .fin 0) ∧
      (1 ≤ 1 ∧ ([(0 : ℚ), 5].getD 0 0 = 0)) ∧
      value_change_rate [(0 : ℚ), 5] 1 =
        (if ([(0 : ℚ), 5].getD 1 0) = 0 then FloatVal.fin 0
         else if 0 < ([(0 : ℚ), 5].getD 1 0) then FloatVal.posInf
         else FloatVal.negInf) :=
  ⟨(value_change_rate_amended [(0 : ℚ), 5] 1).1, ⟨le_refl 1, by decide⟩,
   (value_change_rate_amended [(0 : ℚ), 5] 1).2 (le_refl 1) (by decide)⟩

/-- Witness for C10: the error record at a concrete input, and severity
`'normal'` on a concrete non-anomalous success input. -/
theorem error_branch_total_witness :
    detect_anomaly_full (.error "IOError") ⟨"s1", 0, 5⟩ [] =
      { is_anomaly := false, anomaly_score := 0, severity := "error",
        message := "Detection error: IOError" } ∧
    (detect_anomaly (fun _ => []) (fun _ => 0) ⟨"s1", 0, 5⟩ []).severity =
      "normal" :=
  ⟨(error_branch_total "IOError" ⟨"s1", 0, 5⟩ []).1,
   (error_branch_total "IOError" ⟨"s1", 0, 5⟩ []).2.2.2
     (fun _ => []) (fun _ => 0) ⟨"s1", 0, 5⟩ [] (by decide)⟩

/-- **C6.** On `L ≥ 24` feature rows with `L` labels, `_create_sequences`
builds exactly `L - 24 + 1` overlapping sequences; each is the contiguous
block `data[j : j+24]` (original order, length exactly 24), and its label is
the label of the last — most recent — point of the block, `labels[j + 23]`. -/
theorem create_sequences_spec {α β : Type} [Inhabited α] [Inhabited β]
    (data : List α) (labels : List β)
    (hlab : labels.length = data.length)
    (hlen : sequence_length ≤ data.length) :
    (create_sequences data labels).1.length =
        data.length - sequence_length + 1 ∧
    (create_sequences data labels).2.length =
        data.length - sequence_length + 1 ∧
    ∀ j, j < data.length - sequence_length + 1 →
      (create_sequences data labels).1.getD j [] =
          (data.drop j).take sequence_length ∧
      ((create_sequences data labels).1.getD j []).length = sequence_length ∧
      ((create_sequences data labels).1.getD j []).getD
          (sequence_length - 1) default =
        data.getD (j + (sequence_length - 1)) default ∧
      (create_sequences data labels).2.getD j default =
        labels.getD (j + (sequence_length - 1)) default := by
  have hn : data.length + 1 - sequence_length =
      data.length - sequence_length + 1 := by omega
  refine ⟨by simp [create_sequences, hn], by simp [create_sequences, hn],
          fun j hj => ?_⟩
  have hjn : j < data.length + 1 - sequence_length := by omega
  have hX : (create_sequences data labels).1.getD j [] =
      (data.drop j).take sequence_length := by
    simp only [create_sequences]
    exact getD_range_map _ _ _ hjn _
  have hseq : ((data.drop j).take sequence_length).length = sequence_length := by
    rw [List.length_take, List.length_drop]
    omega
  refine ⟨hX, by rw [hX]; exact hseq, ?_, ?_⟩
  · rw [hX]
    have hb : sequence_length - 1 < ((data.drop j).take sequence_length).length := by
      rw [hseq]; unfold sequence_length; omega
    have hb2 : j + (sequence_length - 1) < data.length := by omega
    rw [List.getD_eq_getElem _ _ hb, List.getD_eq_getElem _ _ hb2]
    rw [List.getElem_take, List.getElem_drop]
  · simp only [create_sequences]
    rw [getD_range_map _ _ _ hjn]
    have : j + sequence_length - 1 = j + (sequence_length - 1) := by
      unfold sequence_length; omega
    rw [this]

/-- Witness for C6 on 24 rows labelled `0..23`: one sequence, equal to the
whole input, labelled by the last point's label 23. -/
theorem create_sequences_spec_witness :
    ((List.range 24).length = (List.range 24).length ∧
      sequence_length ≤ (List.range 24).length) ∧
    (create_sequences (List.range 24) (List.range 24)).1.length = 1 ∧
    (create_sequences (List.range 24) (List.range 24)).1.getD 0 [] =
      List.range 24 ∧
    (create_sequences (List.range 24) (List.range 24)).2.getD 0 default = 23 := by
  have h := create_sequences_spec (List.range 24) (List.range 24) rfl (by decide)
  refine ⟨⟨rfl, by decide⟩, ?_, ?_, ?_⟩
  · rw [h.1]; decide
  · rw [(h.2.2 0 (by decide)).1]; decide
  · rw [(h.2.2 0 (by decide)).2.2.2]; decide

/-- **C8, counterexample.** Appending the same reading twice does *not*
leave the window's logical content unchanged: on an empty store, posting
`("s1", t=100, v=5)` twice yields a window holding *two* entries for
timestamp 100 (each insert creates a fresh autoincrement row; there is no
uniqueness constraint and no last-write-wins), and the window differs from
the one after a single append. -/
theorem duplicate_append_counterexample :
    (get_historical_sensor_data
        (create_sensor_data (create_sensor_data [] "s1" 100 5) "s1" 100 5)
        "s1" 0).countP (fun r => r.timestamp == 100) = 2 ∧
    (get_historical_sensor_data
        (create_sensor_data (create_sensor_data [] "s1" 100 5) "s1" 100 5)
        "s1" 0).length ≠
      (get_historical_sensor_data (create_sensor_data [] "s1" 100 5)
        "s1" 0).length := by
  decide

/-- **C8, amended.** Appending the same reading (identical sensor_id,
timestamp and value) twice always *adds two rows*: the window subsequently
read for that sensor carries exactly two more entries for that timestamp
than before — duplicate timestamps accumulate; nothing is absorbed. -/
theorem duplicate_append_adds_two (db : List SensorRow) (sid : String)
    (ts : Nat) (v : ℚ) :
    (get_historical_sensor_data
        (create_sensor_data (create_sensor_data db sid ts v) sid ts v)
        sid 0).countP (fun r => r.timestamp == ts) =
      (get_historical_sensor_data db sid 0).countP
        (fun r => r.timestamp == ts) + 2 := by
  simp only [get_historical_sensor_data, create_sensor_data,
    countP_sortRowsByTS, List.filter_append, List.countP_append]
  simp [List.countP_cons]

/-- Witness for C8 (amended) on an empty store. -/
theorem duplicate_append_adds_two_witness :
    (get_historical_sensor_data
        (create_sensor_data (create_sensor_data [] "s1" 100 5) "s1" 100 5)
        "s1" 0).countP (fun r => r.timestamp == 100) =
      (get_historical_sensor_data [] "s1" 0).countP
        (fun r => r.timestamp == 100) + 2 :=
  duplicate_append_adds_two [] "s1" 100 5

end Platform
